import Mathlib

/-!
Verification of the natural-language specification of the Data-Blogs
repository (NL-to-SQL Athena handler and self-healing Glue pipeline)
against a shallow embedding of `handler.py` and
`self_healing_pipeline.py`.

Strings are embedded as `List Char`; Python `str.upper`, `str.strip`,
substring membership (`kw in s`) and `str.startswith` are given explicit
executable definitions.  External services (Glue catalog, Bedrock,
Athena, CloudWatch, SNS) are oracles supplied through environment
records; a fallible sink is an `Except` value.
-/

/-- Python `str.upper` on the character list (ASCII case mapping,
which agrees with Python on all inputs appearing in the code). -/
def pyToUpper (s : List Char) : List Char := s.map Char.toUpper

/-- Python whitespace characters recognised by `str.strip()`. -/
def isPySpace (c : Char) : Bool :=
  c = ' ' || c = '\t' || c = '\n' || c = '\r' || c = '\x0b' || c = '\x0c'

/-- Python `str.strip()`: drop leading and trailing whitespace. -/
def pyStrip (s : List Char) : List Char :=
  ((s.dropWhile isPySpace).reverse.dropWhile isPySpace).reverse

/-- Python substring membership `needle in hay`. -/
def containsSubstr (needle hay : List Char) : Bool :=
  match hay with
  | [] => needle.isEmpty
  | _ :: t => needle.isPrefixOf hay || containsSubstr needle t

/-- Python `sep.join(parts)`. -/
def strJoin (sep : List Char) : List (List Char) → List Char
  | [] => []
  | [p] => p
  | p :: q :: rest => p ++ sep ++ strJoin sep (q :: rest)

namespace Handler

/-- `BLOCKED_KEYWORDS` from `handler.py`: statements that must never be
executed via this action group. -/
def BLOCKED_KEYWORDS : List (List Char) :=
  ["DROP".data, "DELETE".data, "INSERT".data, "UPDATE".data,
   "ALTER".data, "TRUNCATE".data, "CREATE".data]

/-- Default database name from `handler.py`. -/
def DEFAULT_DATABASE : List Char := "data_warehouse".data

/-- Verdict dictionary returned by `validate_sql`: the `reason` key is
present exactly when the code adds it. -/
structure Verdict where
  safe : Bool
  reason : Option (List Char)
deriving DecidableEq, Repr

/-- The `for kw in BLOCKED_KEYWORDS` loop of `validate_sql`: first
keyword found as a substring of `upper`, if any. -/
def checkBlocked : List (List Char) → List Char → Option (List Char)
  | [], _ => none
  | kw :: rest, upper =>
    if containsSubstr kw upper then some kw else checkBlocked rest upper

/-- `validate_sql` from `handler.py`: block any destructive SQL
statement, then require a `SELECT`/`WITH` lead keyword. -/
def validate_sql (sql : List Char) : Verdict :=
  let upper := pyToUpper sql
  match checkBlocked BLOCKED_KEYWORDS upper with
  | some kw => ⟨false, some ("Blocked keyword detected: ".data ++ kw)⟩
  | none =>
    if !("SELECT".data.isPrefixOf (pyStrip upper))
        && !("WITH".data.isPrefixOf (pyStrip upper)) then
      ⟨false, some "Only SELECT / WITH queries are permitted".data⟩
    else
      ⟨true, none⟩

/-- Athena `Statistics` dictionary: the two keys read by the code, each
possibly absent (`dict.get` with a default is used at every access). -/
structure Stats where
  dataScannedInBytes : Option Nat
  totalExecutionTimeInMillis : Option Nat
deriving DecidableEq, Repr

/-- The empty `Statistics` dictionary `\x7b\x7d`. -/
def emptyStats : Stats := ⟨none, none⟩

/-- One Athena result cell: the optional `VarCharValue` field. -/
abbrev Cell := Option (List Char)

/-- One Athena result row: its `Data` list of cells. -/
abbrev Row := List Cell

/-- One `get_query_execution` response: the status `State` plus the
optional `Statistics` dictionary. -/
structure PollResp where
  state : List Char
  statistics : Option Stats
deriving DecidableEq, Repr

/-- Result of `poll_query`, together with the number of
`get_query_execution` calls the loop performed. -/
structure PollOutcome where
  state : List Char
  stats : Stats
  polls : Nat
deriving DecidableEq, Repr

/-- The terminal-state test `state in ("SUCCEEDED", "FAILED",
"CANCELLED")` of `poll_query`. -/
def isTerminal (s : List Char) : Bool :=
  s = "SUCCEEDED".data || s = "FAILED".data || s = "CANCELLED".data

/-- The `for _ in range(timeout_seconds // 2)` loop of `poll_query`:
`obs k` is the response to the `k`-th `get_query_execution` call, `i`
counts calls already made, `fuel` the iterations left. -/
def pollLoop (obs : Nat → PollResp) : Nat → Nat → PollOutcome
  | i, 0 => ⟨"TIMEOUT".data, emptyStats, i⟩
  | i, fuel + 1 =>
    let r := obs i
    if isTerminal r.state then ⟨r.state, r.statistics.getD emptyStats, i + 1⟩
    else pollLoop obs (i + 1) fuel

/-- `poll_query` from `handler.py`: poll Athena every 2 seconds until
the query finishes or `timeout_seconds` elapse. -/
def poll_query (obs : Nat → PollResp) (timeout_seconds : Nat) : PollOutcome :=
  pollLoop obs 0 (timeout_seconds / 2)

/-- Exact rational stand-in for `round(x, 3)` applied to the
megabyte conversion in `fetch_results`. -/
def roundTo3 (q : ℚ) : ℚ := (round (q * 1000) : ℚ) / 1000

/-- Payload dictionary built by `fetch_results`; the last two keys are
absent on the zero-row early return. -/
structure ResultsPayload where
  sql_generated : List Char
  columns : List (List Char)
  rows : List (List (List Char))
  row_count : Nat
  data_scanned_mb : Option ℚ
  execution_time_ms : Option Nat
deriving DecidableEq, Repr

/-- `fetch_results` from `handler.py`: format the retrieved Athena
rows, first row as header, each cell via `c.get("VarCharValue", "")`. -/
def fetch_results (retrieved : List Row) (sql : List Char) (stats : Stats) :
    ResultsPayload :=
  match retrieved with
  | [] => ⟨sql, [], [], 0, none, none⟩
  | first :: rest =>
    let headers := first.map (fun c => c.getD [])
    let data := rest.map (fun row => row.map (fun c => c.getD []))
    ⟨sql, headers, data, data.length,
     some (roundTo3 ((stats.dataScannedInBytes.getD 0 : ℚ) / (1024 * 1024))),
     some (stats.totalExecutionTimeInMillis.getD 0)⟩

/-- One Glue catalog column (`Name` and `Type.Name`). -/
structure CatalogColumn where
  name : List Char
  typeName : List Char
deriving DecidableEq, Repr

/-- One Glue catalog table (`Name` plus `StorageDescriptor.Columns`,
the latter possibly absent — `.get` chains with default `\x7b\x7d`). -/
structure CatalogTable where
  name : List Char
  columns : List CatalogColumn
deriving DecidableEq, Repr

/-- `get_catalog_schema` from `handler.py`, with the `glue.get_tables`
call abstracted to its outcome: pull table schemas, fail soft. -/
def get_catalog_schema (tablesFetch : Except (List Char) (List CatalogTable)) :
    List Char :=
  match tablesFetch with
  | .error _ => "Schema unavailable — generate best-effort SQL".data
  | .ok tables =>
    let schema_lines := (tables.take 10).map (fun table =>
      "  TABLE ".data ++ table.name ++ ": ".data ++
        strJoin ", ".data (table.columns.map (fun c =>
          c.name ++ " (".data ++ c.typeName ++ ")".data)))
    let joined := strJoin "\n".data schema_lines
    if joined = [] then "No tables found in catalog".data else joined

/-- Environment of external services used by `execute_nl_query`:
the Glue catalog fetch outcome, the Bedrock completion (as a function
of the prompt ingredients), Athena submission, polling and results. -/
structure NlEnv where
  glueTables : Except (List Char) (List CatalogTable)
  bedrockText : List Char → List Char → List Char → List Char
  startQueryExecution : List Char → List Char → List Char
  getQueryExecution : List Char → Nat → PollResp
  getQueryResults : List Char → List Row

/-- `generate_sql` from `handler.py`: ask Bedrock for SQL and strip the
returned text. -/
def generate_sql (env : NlEnv) (question database schema_context : List Char) :
    List Char :=
  pyStrip (env.bedrockText question database schema_context)

/-- The three result-dictionary shapes `execute_nl_query` can return:
the safety block, an Athena non-success, or the formatted results. -/
inductive NlResult where
  | blocked (error sql : List Char)
  | queryFailed (error sql query_id : List Char)
  | results (payload : ResultsPayload)
deriving DecidableEq, Repr

/-- Result of `execute_nl_query` together with whether
`start_query_execution` was reached. -/
structure NlOutcome where
  result : NlResult
  startedExecution : Bool
deriving DecidableEq, Repr

/-- `execute_nl_query` from `handler.py`: schema context → SQL
generation → safety validation → Athena execution → poll → results. -/
def execute_nl_query (question database : List Char) (env : NlEnv) :
    NlOutcome :=
  let schema_context := get_catalog_schema env.glueTables
  let sql_query := generate_sql env question database schema_context
  let safety_check := validate_sql sql_query
  if safety_check.safe then
    let query_id := env.startQueryExecution sql_query database
    let po := poll_query (env.getQueryExecution query_id) 60
    if po.state ≠ "SUCCEEDED".data then
      ⟨.queryFailed ("Athena query ".data ++ po.state) sql_query query_id, true⟩
    else
      ⟨.results (fetch_results (env.getQueryResults query_id) sql_query po.stats),
       true⟩
  else
    ⟨.blocked ("Query blocked: ".data ++ safety_check.reason.getD []) sql_query,
     false⟩

end Handler

/-- JSON values, used for the dictionaries the handlers serialise with
`json.dumps`; the embedding keeps the structured value. -/
inductive Json where
  | str (s : List Char)
  | num (q : ℚ)
  | arr (xs : List Json)
  | obj (fields : List (List Char × Json))

namespace Handler

/-- JSON shape of each `execute_nl_query` result dictionary. -/
def NlResult.toJson : NlResult → Json
  | .blocked e sql =>
    .obj [("error".data, .str e), ("sql".data, .str sql)]
  | .queryFailed e sql qid =>
    .obj [("error".data, .str e), ("sql".data, .str sql),
          ("query_id".data, .str qid)]
  | .results p =>
    .obj [("sql_generated".data, .str p.sql_generated),
          ("columns".data, .arr (p.columns.map .str)),
          ("rows".data, .arr (p.rows.map (fun r => .arr (r.map .str)))),
          ("row_count".data, .num p.row_count),
          ("data_scanned_mb".data, .num (p.data_scanned_mb.getD 0)),
          ("execution_time_ms".data, .num (p.execution_time_ms.getD 0))]

/-- Bedrock action-group invocation event consumed by
`lambda_handler`: `actionGroup`, `function` and the `parameters` list
(each entry a name/value pair). -/
structure Event where
  actionGroup : List Char
  function : List Char
  parameters : List (List Char × List Char)
deriving DecidableEq, Repr

/-- The dict comprehension `\x7bp["name"]: p["value"] for p in ...\x7d`
followed by a key lookup: later entries overwrite earlier ones. -/
def paramLookup (ps : List (List Char × List Char)) (key : List Char) :
    Option (List Char) :=
  match ps with
  | [] => none
  | (n, v) :: rest => match paramLookup rest key with
    | some w => some w
    | none => if n = key then some v else none

/-- Response envelope returned by `lambda_handler`: message version,
echoed action group and function, and the response body (the result
dictionary that `json.dumps` serialises). -/
structure Envelope where
  messageVersion : List Char
  actionGroup : List Char
  function : List Char
  body : Json

/-- Result of the handler run: the returned envelope, or the Python
exception message when a required key is missing; plus whether the
`execute_nl_query` pipeline was entered at all. -/
structure HandlerOutcome where
  result : Except (List Char) Envelope
  pipelineRan : Bool

/-- `lambda_handler` from `handler.py`: dispatch on `event["function"]`;
only `execute_nl_query` runs the pipeline, anything else yields the
`Unknown function` error dictionary. -/
def lambda_handler (event : Event) (env : NlEnv) : HandlerOutcome :=
  if event.function = "execute_nl_query".data then
    match paramLookup event.parameters "question".data with
    | none => ⟨.error "KeyError: question".data, false⟩
    | some question =>
      let database := (paramLookup event.parameters "database".data).getD
        DEFAULT_DATABASE
      let out := execute_nl_query question database env
      ⟨.ok ⟨"1.0".data, event.actionGroup, event.function,
            out.result.toJson⟩, true⟩
  else
    ⟨.ok ⟨"1.0".data, event.actionGroup, event.function,
          .obj [("error".data,
                 .str ("Unknown function: ".data ++ event.function))]⟩,
     false⟩

end Handler

namespace SelfHealing

/-- `detail` object of the EventBridge Glue job-state-change event:
every key is read with `detail.get(..., default)`. -/
structure GlueDetail where
  jobName : Option (List Char)
  jobRunId : Option (List Char)
  message : Option (List Char)
deriving DecidableEq, Repr

/-- One Glue `JobRun` record as returned by `get_job_runs`:
`ErrorMessage` is optional (`r.get("ErrorMessage", "")`), `StartedOn`
is kept as its `isoformat()` rendering. -/
structure JobRun where
  id : List Char
  jobRunState : List Char
  startedOn : List Char
  errorMessage : Option (List Char)
deriving DecidableEq, Repr

/-- One entry of the list built by `get_recent_run_history`. -/
structure RunHistoryItem where
  run_id : List Char
  state : List Char
  started : List Char
  error : List Char
deriving DecidableEq, Repr

/-- Environment of external services used by the self-healing handler:
log fetch and run-history fetch outcomes, the fully-consumed agent
stream (narrative text and orchestration-trace chunks), and the
outcomes of the metrics and SNS sinks. -/
structure HealEnv where
  logEvents : Except (List Char) (List (List Char))
  jobRuns : Except (List Char) (List JobRun)
  agentText : List Char
  traces : List Unit
  metricsResult : Except (List Char) Unit
  snsResult : Except (List Char) Unit

/-- `get_cloudwatch_logs` from `self_healing_pipeline.py`: join the
fetched event messages, with a placeholder on empty and on failure. -/
def get_cloudwatch_logs (logEvents : Except (List Char) (List (List Char))) :
    List Char :=
  match logEvents with
  | .ok lines =>
    if lines.isEmpty then "No log events found".data
    else strJoin "\n".data lines
  | .error e => "Could not retrieve logs: ".data ++ e

/-- `get_recent_run_history` from `self_healing_pipeline.py`: map the
fetched runs to summary records, empty list on any failure. -/
def get_recent_run_history (jobRuns : Except (List Char) (List JobRun)) :
    List RunHistoryItem :=
  match jobRuns with
  | .ok runs => runs.map (fun r =>
      ⟨r.id, r.jobRunState, r.startedOn, r.errorMessage.getD []⟩)
  | .error _ => []

/-- One CloudWatch metric datum pushed by `emit_metrics`. -/
structure MetricDatum where
  metricName : List Char
  jobName : List Char
  value : Nat
deriving DecidableEq, Repr

/-- The two metric data points `emit_metrics` always pushes. -/
def emit_metrics_data (job_name : List Char) (traces : List Unit) :
    List MetricDatum :=
  [⟨"AutoRemediationAttempt".data, job_name, 1⟩,
   ⟨"AgentTraceSteps".data, job_name, traces.length⟩]

/-- The SNS notification built by `escalate_to_human`. -/
structure SnsNotification where
  subject : List Char
  message : Json

/-- `escalate_to_human` message construction from
`self_healing_pipeline.py`. -/
def escalate_to_human_notification (job_name run_id error_msg agent_summary :
    List Char) : SnsNotification :=
  ⟨"[AgenticDE] Manual intervention needed: ".data ++ job_name,
   .obj [("alert".data, .str "Agent could not auto-remediate".data),
         ("job_name".data, .str job_name),
         ("run_id".data, .str run_id),
         ("error".data, .str error_msg),
         ("agent_analysis".data, .str agent_summary),
         ("action_required".data,
          .str "Please review and re-trigger manually".data)]⟩

/-- Summary dictionary returned by the self-healing `lambda_handler`. -/
structure HealSummary where
  job_name : List Char
  run_id : List Char
  agent_steps : Nat
  resolved : Bool
  summary : List Char
deriving DecidableEq, Repr

/-- Result of one self-healing handler run: the returned summary (or
the propagated exception message) plus every SNS publish attempted. -/
structure HealOutcome where
  result : Except (List Char) HealSummary
  published : List SnsNotification

/-- The escalation test on line 54 of `self_healing_pipeline.py`:
`"ESCALATE" in agent_response.upper() or "HUMAN" in
agent_response.upper()`. -/
def escalateCond (agent_response : List Char) : Bool :=
  containsSubstr "ESCALATE".data (pyToUpper agent_response) ||
    containsSubstr "HUMAN".data (pyToUpper agent_response)

/-- `lambda_handler` from `self_healing_pipeline.py`: gather evidence,
invoke the agent, emit metrics, escalate on the marker heuristic, and
return the routing summary.  The evidence strings feed only the prompt;
`emit_metrics` and `escalate_to_human` have no exception handling, so a
sink failure aborts the handler. -/
def lambda_handler (detail : GlueDetail) (env : HealEnv) : HealOutcome :=
  let job_name := detail.jobName.getD "unknown".data
  let run_id := detail.jobRunId.getD "unknown".data
  let error_msg := detail.message.getD "No error message provided".data
  let agent_response := env.agentText
  let traces := env.traces
  match env.metricsResult with
  | .error e => ⟨.error e, []⟩
  | .ok _ =>
    let summary : HealSummary :=
      ⟨job_name, run_id, traces.length,
       !containsSubstr "ESCALATE".data (pyToUpper agent_response),
       agent_response.take 500⟩
    if escalateCond agent_response then
      let note := escalate_to_human_notification job_name run_id error_msg
        agent_response
      match env.snsResult with
      | .error e => ⟨.error e, [note]⟩
      | .ok _ => ⟨.ok summary, [note]⟩
    else
      ⟨.ok summary, []⟩

end SelfHealing

/-! Concrete inputs used to instantiate the theorems below. -/

/-- A concrete EventBridge detail for a failed Glue job. -/
def sampleDetail : SelfHealing.GlueDetail :=
  ⟨some "sales_transform_job".data, some "jr_1".data,
   some "Out of memory".data⟩

/-- Environment whose decision narrative contains `HUMAN` but not
`ESCALATE`, with both sinks healthy. -/
def envHuman : SelfHealing.HealEnv :=
  ⟨.ok [], .ok [], "A HUMAN must review this".data, [], .ok (), .ok ()⟩

/-- The summary the self-healing handler returns on `envHuman`. -/
def sHuman : SelfHealing.HealSummary :=
  ⟨"sales_transform_job".data, "jr_1".data, 0, true,
   "A HUMAN must review this".data⟩

/-- Environment whose decision narrative signals success. -/
def envFixed : SelfHealing.HealEnv :=
  ⟨.ok [], .ok [], "Fixed and re-triggered successfully".data, [],
   .ok (), .ok ()⟩

/-- The summary the self-healing handler returns on `envFixed`. -/
def sFixed : SelfHealing.HealSummary :=
  ⟨"sales_transform_job".data, "jr_1".data, 0, true,
   "Fixed and re-triggered successfully".data⟩

/-- Environment whose narrative mentions a human operator only. -/
def envHumanOnly : SelfHealing.HealEnv :=
  ⟨.ok [], .ok [], "please page a human operator".data, [], .ok (), .ok ()⟩

/-- Environment whose narrative carries the explicit escalation marker. -/
def envEscalate : SelfHealing.HealEnv :=
  ⟨.ok [], .ok [], "ESCALATE: schema drift detected".data, [],
   .ok (), .ok ()⟩

/-- Environment whose metrics sink (`put_metric_data`) raises. -/
def envMetricsFail : SelfHealing.HealEnv :=
  ⟨.ok [], .ok [], "Fixed and re-triggered successfully".data, [],
   .error "ServiceUnavailable".data, .ok ()⟩

/-- Environment whose notification sink (`sns.publish`) raises on an
escalating narrative. -/
def envSnsFail : SelfHealing.HealEnv :=
  ⟨.ok [], .ok [], "ESCALATE: needs manual fix".data, [],
   .ok (), .error "AccessDenied".data⟩

/-- Stub NL-query environment whose generator returns a destructive
statement. -/
def stubEnvDrop : Handler.NlEnv :=
  ⟨.ok [], fun _ _ _ => "DROP TABLE sales".data, fun _ _ => "qid-1".data,
   fun _ _ => ⟨"SUCCEEDED".data, none⟩, fun _ => []⟩

/-- An invocation event naming a function the handler does not know. -/
def unknownEvent : Handler.Event :=
  ⟨"athena-actions".data, "summarize_table".data, []⟩

/-- An execution-status oracle that never reaches a terminal state. -/
def obsRunning : Nat → Handler.PollResp := fun _ => ⟨"RUNNING".data, none⟩

/-! Theorems. -/

/-- Bridge from the executable `isPrefixOf` test to the prefix
relation. -/
theorem isPrefixOf_eq_true_iff (l1 l2 : List Char) :
    l1.isPrefixOf l2 = true ↔ l1 <+: l2 :=
  List.isPrefixOf_iff_prefix

/-- `containsSubstr` decides list-infix containment. -/
theorem containsSubstr_eq_true_iff (needle hay : List Char) :
    containsSubstr needle hay = true ↔ needle <:+: hay := by
  induction hay with
  | nil =>
    simp [containsSubstr, List.isEmpty_iff, List.infix_nil]
  | cons a t ih =>
    simp only [containsSubstr, Bool.or_eq_true, List.isPrefixOf_iff_prefix, ih,
      List.infix_cons_iff]

/-- The keyword loop finds no keyword exactly when none occurs as a
substring. -/
theorem checkBlocked_eq_none_iff (ks : List (List Char)) (u : List Char) :
    Handler.checkBlocked ks u = none ↔
      ∀ kw ∈ ks, containsSubstr kw u = false := by
  induction ks with
  | nil => simp [Handler.checkBlocked]
  | cons k rest ih =>
    by_cases h : containsSubstr k u <;>
      simp [Handler.checkBlocked, h, ih]

/-- A keyword returned by the loop is a listed keyword occurring as a
substring. -/
theorem checkBlocked_eq_some (ks : List (List Char)) (u kw : List Char)
    (h : Handler.checkBlocked ks u = some kw) :
    kw ∈ ks ∧ containsSubstr kw u = true := by
  induction ks with
  | nil => simp [Handler.checkBlocked] at h
  | cons k rest ih =>
    by_cases hk : containsSubstr k u
    · simp [Handler.checkBlocked, hk] at h
      subst h
      exact ⟨List.mem_cons_self _ _, hk⟩
    · simp [Handler.checkBlocked, hk] at h
      rcases ih h with ⟨h1, h2⟩
      exact ⟨List.mem_cons_of_mem _ h1, h2⟩




/-- C4: `validate_sql` accepts a query exactly when its uppercased form
contains no blocked keyword as a substring and its trimmed uppercased
form begins with `SELECT` or `WITH`; as a Lean function it is pure and
deterministic by construction. -/
theorem validate_sql_safe_iff (q : List Char) :
    (Handler.validate_sql q).safe = true ↔
      ((∀ kw ∈ Handler.BLOCKED_KEYWORDS, ¬ kw <:+: pyToUpper q) ∧
       ("SELECT".data <+: pyStrip (pyToUpper q) ∨
        "WITH".data <+: pyStrip (pyToUpper q))) := by
  simp only [Handler.validate_sql]
  rcases h : Handler.checkBlocked Handler.BLOCKED_KEYWORDS (pyToUpper q)
    with _ | kw
  · rw [checkBlocked_eq_none_iff] at h
    have hall : ∀ kw ∈ Handler.BLOCKED_KEYWORDS, ¬ kw <:+: pyToUpper q := by
      intro kw hkw hin
      rw [← containsSubstr_eq_true_iff, h kw hkw] at hin
      cases hin
    cases hs : "SELECT".data.isPrefixOf (pyStrip (pyToUpper q)) <;>
      cases hw : "WITH".data.isPrefixOf (pyStrip (pyToUpper q))
    · refine iff_of_false (by simp [hs, hw]) ?_
      rintro ⟨-, hp | hp⟩
      · rw [← isPrefixOf_eq_true_iff, hs] at hp
        exact absurd hp (by decide)
      · rw [← isPrefixOf_eq_true_iff, hw] at hp
        exact absurd hp (by decide)
    · exact iff_of_true (by simp [hs, hw])
        ⟨hall, Or.inr ((isPrefixOf_eq_true_iff _ _).mp hw)⟩
    · exact iff_of_true (by simp [hs, hw])
        ⟨hall, Or.inl ((isPrefixOf_eq_true_iff _ _).mp hs)⟩
    · exact iff_of_true (by simp [hs, hw])
        ⟨hall, Or.inl ((isPrefixOf_eq_true_iff _ _).mp hs)⟩
  · rcases checkBlocked_eq_some _ _ _ h with ⟨hmem, hsub⟩
    rw [containsSubstr_eq_true_iff] at hsub
    simp only [Bool.false_eq_true, false_iff, not_and, not_or]
    intro hall
    exact absurd hsub (hall kw hmem)

/-- Witness for C4 at the spec's example query. -/
theorem validate_sql_safe_iff_witness :
    (Handler.validate_sql "SELECT count(*) FROM sales".data).safe = true :=
  (validate_sql_safe_iff "SELECT count(*) FROM sales".data).mpr (by decide)

/-- C5: every unsafe verdict of `validate_sql` carries a non-empty
reason string. -/
theorem validate_sql_unsafe_reason_nonempty (sql : List Char)
    (h : (Handler.validate_sql sql).safe = false) :
    ∃ r, (Handler.validate_sql sql).reason = some r ∧ 0 < r.length := by
  simp only [Handler.validate_sql] at h ⊢
  rcases hc : Handler.checkBlocked Handler.BLOCKED_KEYWORDS (pyToUpper sql)
    with _ | kw
  · rw [hc] at h
    cases hs : "SELECT".data.isPrefixOf (pyStrip (pyToUpper sql)) <;>
      cases hw : "WITH".data.isPrefixOf (pyStrip (pyToUpper sql))
    · refine ⟨_, rfl, ?_⟩
      decide
    · simp [hs, hw] at h
    · simp [hs, hw] at h
    · simp [hs, hw] at h
  · refine ⟨_, rfl, ?_⟩
    rw [List.length_pos]
    intro hnil
    rcases List.append_eq_nil.mp hnil with ⟨h1, -⟩
    exact absurd h1 (by decide)

/-- Witness for C5 at the spec's example of a denylisted statement. -/
theorem validate_sql_unsafe_reason_nonempty_witness :
    ((Handler.validate_sql "SELECT * FROM t; DROP TABLE t".data).safe
      = false) ∧
    ∃ r, (Handler.validate_sql "SELECT * FROM t; DROP TABLE t".data).reason
      = some r ∧ 0 < r.length :=
  ⟨by decide,
   validate_sql_unsafe_reason_nonempty "SELECT * FROM t; DROP TABLE t".data
     (by decide)⟩

/-- The polling loop performs at most `fuel` further polls. -/
theorem pollLoop_polls_le (obs : Nat → Handler.PollResp) :
    ∀ fuel i, (Handler.pollLoop obs i fuel).polls ≤ i + fuel := by
  intro fuel
  induction fuel with
  | zero => intro i; simp [Handler.pollLoop]
  | succ n ih =>
    intro i
    simp only [Handler.pollLoop]
    by_cases ht : Handler.isTerminal (obs i).state
    · simp [ht]
    · simp only [ht, if_false, Bool.false_eq_true]
      calc (Handler.pollLoop obs (i + 1) n).polls ≤ i + 1 + n := ih (i + 1)
        _ ≤ i + (n + 1) := by omega

/-- If no response in the window is terminal, the loop times out after
exactly `fuel` polls. -/
theorem pollLoop_timeout (obs : Nat → Handler.PollResp) :
    ∀ fuel i, (∀ k, k < fuel → Handler.isTerminal (obs (i + k)).state = false) →
      Handler.pollLoop obs i fuel =
        ⟨"TIMEOUT".data, Handler.emptyStats, i + fuel⟩ := by
  intro fuel
  induction fuel with
  | zero => intro i _; simp [Handler.pollLoop]
  | succ n ih =>
    intro i h
    have h0 : Handler.isTerminal (obs i).state = false := by
      have := h 0 (by omega)
      simpa using this
    simp only [Handler.pollLoop, h0, if_false, Bool.false_eq_true]
    have := ih (i + 1) (fun k hk => by
      have := h (k + 1) (by omega)
      simpa [Nat.add_assoc, Nat.add_comm 1 k] using this)
    rw [this]
    congr 1
    omega

/-- If the `k`-th response is the first terminal one inside the window,
the loop returns it after `k + 1` polls. -/
theorem pollLoop_first_terminal (obs : Nat → Handler.PollResp) :
    ∀ fuel i k, k < fuel →
      Handler.isTerminal (obs (i + k)).state = true →
      (∀ j, j < k → Handler.isTerminal (obs (i + j)).state = false) →
      Handler.pollLoop obs i fuel =
        ⟨(obs (i + k)).state,
         (obs (i + k)).statistics.getD Handler.emptyStats, i + k + 1⟩ := by
  intro fuel
  induction fuel with
  | zero => intro i k hk; omega
  | succ n ih =>
    intro i k hk hterm hfirst
    cases k with
    | zero =>
      simp only [Nat.add_zero] at hterm ⊢
      simp [Handler.pollLoop, hterm]
    | succ m =>
      have h0 : Handler.isTerminal (obs i).state = false := by
        have := hfirst 0 (by omega)
        simpa using this
      simp only [Handler.pollLoop, h0, if_false, Bool.false_eq_true]
      have := ih (i + 1) m (by omega)
        (by
          have : i + 1 + m = i + (m + 1) := by omega
          rw [this]
          exact hterm)
        (fun j hj => by
          have hx := hfirst (j + 1) (by omega)
          have : i + (j + 1) = i + 1 + j := by omega
          rw [this] at hx
          exact hx)
      rw [this]
      have he : i + 1 + m = i + (m + 1) := by omega
      rw [he]

/-- C7: `poll_query` performs at most `timeoutSeconds / 2` status
polls; it returns the first terminal state observed together with that
execution's statistics, and when no poll in the window is terminal it
returns the synthetic `TIMEOUT` state after exactly
`timeoutSeconds / 2` attempts (so 2 attempts for `timeoutSeconds = 4`). -/
theorem poll_query_spec (obs : Nat → Handler.PollResp) (t : Nat) :
    (Handler.poll_query obs t).polls ≤ t / 2 ∧
    (∀ i, i < t / 2 → Handler.isTerminal (obs i).state = true →
      (∀ j, j < i → Handler.isTerminal (obs j).state = false) →
      Handler.poll_query obs t =
        ⟨(obs i).state,
         (obs i).statistics.getD Handler.emptyStats, i + 1⟩) ∧
    ((∀ i, i < t / 2 → Handler.isTerminal (obs i).state = false) →
      Handler.poll_query obs t =
        ⟨"TIMEOUT".data, Handler.emptyStats, t / 2⟩) := by
  refine ⟨?_, ?_, ?_⟩
  · simpa using pollLoop_polls_le obs (t / 2) 0
  · intro i hi hterm hfirst
    have := pollLoop_first_terminal obs (t / 2) 0 i hi
      (by simpa using hterm) (fun j hj => by simpa using hfirst j hj)
    simpa [Handler.poll_query] using this
  · intro hnone
    have := pollLoop_timeout obs (t / 2) 0
      (fun k hk => by simpa using hnone k hk)
    simpa [Handler.poll_query] using this

/-- Witness for C7: a service that never reaches a terminal state with
a 4-second timeout yields `TIMEOUT` after exactly 2 polls. -/
theorem poll_query_spec_witness :
    Handler.poll_query obsRunning 4 =
      ⟨"TIMEOUT".data, Handler.emptyStats, 2⟩ ∧ (2 : Nat) ≤ 4 / 2 :=
  ⟨(poll_query_spec obsRunning 4).2.2 (fun i _ => rfl), by decide⟩

/-- C8: `fetch_results` always satisfies `row_count = len(rows)`; on
zero retrieved rows it returns the empty payload instead of failing,
and otherwise the first retrieved row becomes the columns and every
later row becomes data with each cell coerced to its display string
(empty when absent). -/
theorem fetch_results_spec (retrieved : List Handler.Row) (sql : List Char)
    (stats : Handler.Stats) :
    ((Handler.fetch_results retrieved sql stats).row_count =
      (Handler.fetch_results retrieved sql stats).rows.length) ∧
    (retrieved = [] →
      (Handler.fetch_results retrieved sql stats).row_count = 0 ∧
      (Handler.fetch_results retrieved sql stats).columns = [] ∧
      (Handler.fetch_results retrieved sql stats).rows = []) ∧
    (∀ first rest, retrieved = first :: rest →
      (Handler.fetch_results retrieved sql stats).columns =
        first.map (fun c => c.getD []) ∧
      (Handler.fetch_results retrieved sql stats).rows =
        rest.map (fun row => row.map (fun c => c.getD []))) := by
  rcases retrieved with _ | ⟨first, rest⟩
  · refine ⟨rfl, fun _ => ⟨rfl, rfl, rfl⟩, fun f r hfr => ?_⟩
    cases hfr
  · refine ⟨by simp [Handler.fetch_results], fun h => ?_, fun f r hfr => ?_⟩
    · cases h
    · injection hfr with h1 h2
      subst h1
      subst h2
      exact ⟨rfl, rfl⟩

/-- Witness for C8 at zero retrieved rows. -/
theorem fetch_results_spec_witness :
    (Handler.fetch_results [] "SELECT 1".data Handler.emptyStats).row_count
      = 0 ∧
    (Handler.fetch_results [] "SELECT 1".data Handler.emptyStats).columns
      = [] ∧
    (Handler.fetch_results [] "SELECT 1".data Handler.emptyStats).rows
      = [] :=
  (fetch_results_spec [] "SELECT 1".data Handler.emptyStats).2.1 rfl

/-- C6: when validation rejects the generated query, `execute_nl_query`
returns the blocked-error result carrying the rejection reason and the
rejected SQL, and `start_query_execution` is never reached. -/
theorem blocked_query_never_executed (question database : List Char)
    (env : Handler.NlEnv)
    (h : (Handler.validate_sql (Handler.generate_sql env question database
        (Handler.get_catalog_schema env.glueTables))).safe = false) :
    (Handler.execute_nl_query question database env).startedExecution
      = false ∧
    (Handler.execute_nl_query question database env).result =
      .blocked
        ("Query blocked: ".data ++
          (Handler.validate_sql (Handler.generate_sql env question database
            (Handler.get_catalog_schema env.glueTables))).reason.getD [])
        (Handler.generate_sql env question database
          (Handler.get_catalog_schema env.glueTables)) := by
  simp only [Handler.execute_nl_query]
  rw [h]
  exact ⟨rfl, rfl⟩

/-- Witness for C6 with a stub generator returning `DROP TABLE sales`. -/
theorem blocked_query_never_executed_witness :
    ((Handler.validate_sql (Handler.generate_sql stubEnvDrop
        "total sales".data Handler.DEFAULT_DATABASE
        (Handler.get_catalog_schema stubEnvDrop.glueTables))).safe
      = false) ∧
    (Handler.execute_nl_query "total sales".data Handler.DEFAULT_DATABASE
        stubEnvDrop).startedExecution = false :=
  ⟨by decide,
   (blocked_query_never_executed "total sales".data Handler.DEFAULT_DATABASE
     stubEnvDrop (by decide)).1⟩

/-- C9: a failure of the catalog fetch yields the schema-unavailable
sentinel, a failure of the log fetch yields a non-empty placeholder
string, and a failure of the run-history fetch yields the empty list;
none of the three collectors propagates the failure. -/
theorem collectors_fail_soft :
    (∀ e, Handler.get_catalog_schema (Except.error e) =
      "Schema unavailable — generate best-effort SQL".data) ∧
    (∀ e, SelfHealing.get_cloudwatch_logs (Except.error e) =
      "Could not retrieve logs: ".data ++ e ∧
      0 < (SelfHealing.get_cloudwatch_logs (Except.error e)).length) ∧
    (∀ e, SelfHealing.get_recent_run_history (Except.error e) = []) := by
  refine ⟨fun e => rfl, fun e => ⟨rfl, ?_⟩, fun e => rfl⟩
  show 0 < ("Could not retrieve logs: ".data ++ e).length
  rw [List.length_pos]
  intro hnil
  rcases List.append_eq_nil.mp hnil with ⟨h1, -⟩
  exact absurd h1 (by decide)

/-- C10: for any invocation event naming an unknown function, the NL
query handler runs no pipeline step and returns the standard envelope
whose body is the JSON object with the `Unknown function` error. -/
theorem unknown_function_no_pipeline (event : Handler.Event)
    (env : Handler.NlEnv)
    (h : event.function ≠ "execute_nl_query".data) :
    Handler.lambda_handler event env =
      ⟨.ok ⟨"1.0".data, event.actionGroup, event.function,
            .obj [("error".data,
                   .str ("Unknown function: ".data ++ event.function))]⟩,
       false⟩ := by
  simp only [Handler.lambda_handler]
  rw [if_neg h]

/-- Witness for C10 at a concrete unknown-function event. -/
theorem unknown_function_no_pipeline_witness :
    Handler.lambda_handler unknownEvent stubEnvDrop =
      ⟨.ok ⟨"1.0".data, unknownEvent.actionGroup, unknownEvent.function,
            .obj [("error".data,
                   .str ("Unknown function: ".data ++
                     unknownEvent.function))]⟩,
       false⟩ :=
  unknown_function_no_pipeline unknownEvent stubEnvDrop (by decide)

/-- C1 counterexample: on the narrative `A HUMAN must review this` the
escalation test holds (the notification fires), yet the returned
summary has `resolved = true`, so `resolved` is not the negation of
the two-marker escalation predicate. -/
theorem resolved_true_despite_human_marker :
    (SelfHealing.lambda_handler sampleDetail envHuman).result =
      Except.ok sHuman ∧
    sHuman.resolved = true ∧
    SelfHealing.escalateCond envHuman.agentText = true ∧
    sHuman.resolved ≠ (!SelfHealing.escalateCond envHuman.agentText) ∧
    (SelfHealing.lambda_handler sampleDetail envHuman).published.length
      = 1 :=
  ⟨rfl, rfl, by decide, by decide, rfl⟩

/-- C1 (amended): whenever the self-healing handler returns a routing
summary, its `resolved` field equals the negation of the
`"ESCALATE"`-only case-insensitive substring test on the narrative —
the `"HUMAN"` marker plays no part in `resolved`. -/
theorem resolved_eq_not_contains_escalate (detail : SelfHealing.GlueDetail)
    (env : SelfHealing.HealEnv) (s : SelfHealing.HealSummary)
    (h : (SelfHealing.lambda_handler detail env).result = Except.ok s) :
    s.resolved =
      !containsSubstr "ESCALATE".data (pyToUpper env.agentText) := by
  obtain ⟨le, jr, atext, tr, mr, sr⟩ := env
  rcases mr with e | u
  · exact absurd h (by simp [SelfHealing.lambda_handler])
  · cases he : SelfHealing.escalateCond atext
    · have hres : (SelfHealing.lambda_handler detail
          ⟨le, jr, atext, tr, .ok u, sr⟩).result =
          Except.ok ⟨detail.jobName.getD "unknown".data,
            detail.jobRunId.getD "unknown".data, tr.length,
            !containsSubstr "ESCALATE".data (pyToUpper atext),
            atext.take 500⟩ := by
        simp [SelfHealing.lambda_handler, he]
      rw [hres] at h
      injection h with h2
      rw [← h2]
    · rcases sr with e | u2
      · exact absurd h (by simp [SelfHealing.lambda_handler, he])
      · have hres : (SelfHealing.lambda_handler detail
            ⟨le, jr, atext, tr, .ok u, .ok u2⟩).result =
            Except.ok ⟨detail.jobName.getD "unknown".data,
              detail.jobRunId.getD "unknown".data, tr.length,
              !containsSubstr "ESCALATE".data (pyToUpper atext),
              atext.take 500⟩ := by
          simp [SelfHealing.lambda_handler, he]
        rw [hres] at h
        injection h with h2
        rw [← h2]

/-- Witness for amended C1 on a non-escalating narrative. -/
theorem resolved_eq_not_contains_escalate_witness :
    ((SelfHealing.lambda_handler sampleDetail envFixed).result =
      Except.ok sFixed) ∧
    sFixed.resolved =
      !containsSubstr "ESCALATE".data (pyToUpper envFixed.agentText) :=
  ⟨rfl, resolved_eq_not_contains_escalate sampleDetail envFixed sFixed rfl⟩

/-- C2 counterexample: the narrative `please page a human operator`
contains no `ESCALATE` substring, yet exactly one notification is
published, because the code also escalates on the `HUMAN` marker. -/
theorem publish_on_human_without_escalate :
    (SelfHealing.lambda_handler sampleDetail envHumanOnly).published.length
      = 1 ∧
    containsSubstr "ESCALATE".data (pyToUpper envHumanOnly.agentText)
      = false :=
  ⟨rfl, by decide⟩

/-- C2 (amended): when metric emission succeeds, the handler publishes
exactly one notification when the narrative contains `ESCALATE` or
`HUMAN` case-insensitively, and zero notifications otherwise. -/
theorem sns_publish_count (detail : SelfHealing.GlueDetail)
    (env : SelfHealing.HealEnv) (h : env.metricsResult = Except.ok ()) :
    (SelfHealing.lambda_handler detail env).published.length =
      if SelfHealing.escalateCond env.agentText then 1 else 0 := by
  obtain ⟨le, jr, atext, tr, mr, sr⟩ := env
  have hm : mr = Except.ok () := h
  subst hm
  cases he : SelfHealing.escalateCond atext
  · simp [SelfHealing.lambda_handler, he]
  · rcases sr with e | u <;> simp [SelfHealing.lambda_handler, he]

/-- Witness for amended C2 on an escalating narrative. -/
theorem sns_publish_count_witness :
    (envEscalate.metricsResult = Except.ok ()) ∧
    (SelfHealing.lambda_handler sampleDetail envEscalate).published.length
      = 1 :=
  ⟨rfl, (sns_publish_count sampleDetail envEscalate rfl).trans (by decide)⟩

/-- C3: a failure raised by `put_metric_data` or by `sns.publish` is
not swallowed — the self-healing handler propagates it and returns no
structured summary, contradicting the documented fail-soft contract of
the observability side channels. -/
theorem sink_failures_propagate :
    (SelfHealing.lambda_handler sampleDetail envMetricsFail).result =
      Except.error "ServiceUnavailable".data ∧
    (SelfHealing.lambda_handler sampleDetail envSnsFail).result =
      Except.error "AccessDenied".data :=
  ⟨rfl, rfl⟩
